import Mathlib

/-!
Shallow embedding of the `authify` OIDC command-line client
(src/main.rs, src/oidc/oidc_client.rs, src/oidc/callback_listener.rs,
src/oidc/jwt_client.rs) together with proofs about the specification's
claims.  Network transport is external: functions that in Rust issue an
HTTP request are embedded from the point where the already-received
response body is processed.  Randomness is external as well: the random
number generator behind `generate_state` is passed in as an explicit
stream of draws.
-/

namespace Authify

/-- Model of a parsed `serde_json::Value`.  A number carries its exact
rational value together with a flag recording whether serde stores it as a
float (`f64`): a literal with a fraction or exponent part, or an integer
outside both the `i64` and `u64` ranges. -/
inductive Json where
  | null : Json
  | bool (b : Bool) : Json
  | num (isFloat : Bool) (q : ℚ) : Json
  | str (s : String) : Json
  | arr (elems : List Json) : Json
  | obj (fields : List (String × Json)) : Json

/-- serde_json string indexing `json["key"]`: on an object it returns the
field's value (or `Null` when absent); on every other value it returns
`Null`. -/
def Json.getField : Json → String → Json
  | .obj fields, key =>
      match fields.lookup key with
      | some v => v
      | none => .null
  | _, _ => .null

/-- serde_json `Value::as_str`: `Some` exactly on strings. -/
def Json.asStr : Json → Option String
  | .str s => some s
  | _ => none

/-- serde_json `Value::as_u64`: `Some` exactly on numbers stored as
non-negative integers that fit in 64 unsigned bits; floats (fractional
numbers), negative numbers and non-numbers give `None`. -/
def Json.asU64 : Json → Option ℕ
  | .num false q =>
      if 0 ≤ q.num ∧ q.den = 1 ∧ q.num < 2 ^ 64 then some q.num.toNat else none
  | _ => none

/-- Rust `Option::ok_or` followed by `?`: unwrap or short-circuit with the
given error. -/
def okOr {α ε : Type} : Option α → ε → Except ε α
  | some a, _ => .ok a
  | none, e => .error e

/-- The discovered endpoint set (struct `WellKnowns`,
src/oidc/oidc_client.rs lines 30-35). -/
structure WellKnowns where
  auth_url : String
  token_url : String
  user_info_url : String
  jwks_url : String
deriving DecidableEq

/-- The JSON-validation step of `fetch_well_knowns_from_custom_url`
(src/oidc/oidc_client.rs lines 82-101): the body of a 2xx discovery
response, already parsed to JSON, is checked for the four endpoint fields
in source order; `ok_or("Missing ...")?` short-circuits with a message
naming the field. -/
def fetch_well_knowns_from_json (json : Json) : Except String WellKnowns := do
  let auth_url ← okOr ((json.getField "authorization_endpoint").asStr)
    "Missing authorization_endpoint"
  let token_url ← okOr ((json.getField "token_endpoint").asStr)
    "Missing token_endpoint"
  let user_info_url ← okOr ((json.getField "userinfo_endpoint").asStr)
    "Missing userinfo_endpoint"
  let jwks_url ← okOr ((json.getField "jwks_uri").asStr)
    "Missing jwks_uri"
  .ok { auth_url := auth_url, token_url := token_url,
        user_info_url := user_info_url, jwks_url := jwks_url }

/-- Error type `OidcError` (src/oidc/oidc_client.rs lines 8-14); the
`reqwest::Error` payload of `NetworkError` is modelled by its message. -/
inductive OidcError where
  | NetworkError (msg : String)
  | InvalidResponse (msg : String)
  | MissingField (name : String)
  | DecodingError (msg : String)
deriving DecidableEq

/-- Struct `TokenEndpointResponse` (src/oidc/oidc_client.rs lines 38-45);
`expires_in : u64` is a natural number below `2 ^ 64`. -/
structure TokenEndpointResponse where
  access_token : String
  token_type : String
  expires_in : ℕ
  refresh_token : Option String
  scope : Option String
  id_token : Option String
deriving DecidableEq

/-- The JSON-validation step of `get_token` (src/oidc/oidc_client.rs lines
178-193): the body of a 2xx token response, already parsed to JSON, is
turned into a `TokenEndpointResponse`, checking `access_token`,
`token_type` and `expires_in` in source order and taking the optional
fields as they come.  The best-effort `id_token` decode just above it only
prints and never alters this result. -/
def get_token_from_json (json : Json) : Except OidcError TokenEndpointResponse := do
  let access_token ← okOr ((json.getField "access_token").asStr)
    (OidcError.MissingField "access_token")
  let token_type ← okOr ((json.getField "token_type").asStr)
    (OidcError.MissingField "token_type")
  let expires_in ← okOr ((json.getField "expires_in").asU64)
    (OidcError.MissingField "expires_in")
  .ok { access_token := access_token, token_type := token_type,
        expires_in := expires_in,
        refresh_token := (json.getField "refresh_token").asStr,
        scope := (json.getField "scope").asStr,
        id_token := (json.getField "id_token").asStr }

/-- The JSON-validation step of `refresh_token` (src/oidc/oidc_client.rs
lines 241-256), textually identical to the one in `get_token`. -/
def refresh_token_from_json (json : Json) : Except OidcError TokenEndpointResponse := do
  let access_token ← okOr ((json.getField "access_token").asStr)
    (OidcError.MissingField "access_token")
  let token_type ← okOr ((json.getField "token_type").asStr)
    (OidcError.MissingField "token_type")
  let expires_in ← okOr ((json.getField "expires_in").asU64)
    (OidcError.MissingField "expires_in")
  .ok { access_token := access_token, token_type := token_type,
        expires_in := expires_in,
        refresh_token := (json.getField "refresh_token").asStr,
        scope := (json.getField "scope").asStr,
        id_token := (json.getField "id_token").asStr }

/-- Struct `OidcClient` (src/oidc/oidc_client.rs lines 48-56). -/
structure OidcClient where
  issuer : String
  client_id : String
  client_secret : String
  redirect_url : String
  scope : List String
  well_knowns : WellKnowns
  state : Option String
deriving DecidableEq

/-- The sample space of `rand::distributions::Alphanumeric`: the 62
characters it draws from, in the crate's order. -/
def alphanumericChars : List Char :=
  "ABCDEFGHIJKLMNOPQRSTUVWXYZabcdefghijklmnopqrstuvwxyz0123456789".toList

theorem alphanumericChars_length : alphanumericChars.length = 62 := by rfl

/-- `generate_state` (src/oidc/oidc_client.rs lines 120-125): 32 samples
of the `Alphanumeric` distribution, collected into a string; the RNG is
modelled as the stream `draws` of uniform indices into the 62-character
alphabet. -/
def generate_state (draws : ℕ → Fin 62) : String :=
  String.mk ((List.range 32).map fun i =>
    alphanumericChars.get ((draws i).cast alphanumericChars_length.symm))

/-- `build_authorization_url` (src/oidc/oidc_client.rs lines 104-118): it
joins the scopes with spaces, unconditionally generates a fresh state and
stores it in `self.state`, formats the query string and appends the fixed
`&access_type=offline` suffix.  The source wraps the string in `Ok` but
has no error path, so the embedding returns the url and the updated
client. -/
def build_authorization_url (c : OidcClient) (draws : ℕ → Fin 62) :
    String × OidcClient :=
  let scope := String.intercalate " " c.scope
  let state := generate_state draws
  let c' := { c with state := some state }
  let url := c.well_knowns.auth_url ++ "?response_type=code&client_id=" ++
    c.client_id ++ "&redirect_uri=" ++ c.redirect_url ++ "&scope=" ++ scope ++
    "&state=" ++ state
  let url := url ++ "&access_type=offline"
  (url, c')

/-- The observable state of the callback listener's two oneshot channels
(src/oidc/callback_listener.rs lines 8-13): whether each `Sender` is still
in its `Arc<Mutex<Option<...>>>` slot, the value (if any) delivered into
the code channel, and whether the shutdown signal was sent. -/
structure ListenerState where
  code_tx : Bool
  shutdown_tx : Bool
  code_sent : Option String
  shutdown_sent : Bool
deriving DecidableEq

/-- The channel state right after `listen` creates the two channels: both
senders present, nothing delivered. -/
def ListenerState.init : ListenerState :=
  { code_tx := true, shutdown_tx := true, code_sent := none,
    shutdown_sent := false }

/-- `handle_callback` (src/oidc/callback_listener.rs lines 45-73) as a
step function: the query parameters are the `HashMap` (an association
list); when a `code` parameter is present, each sender is `take`n from its
slot if still there and used to send, and the generic acknowledgement is
returned; otherwise the informational reply is returned and nothing is
touched. -/
def handle_callback (params : List (String × String)) (s : ListenerState) :
    String × ListenerState :=
  match params.lookup "code" with
  | some code =>
      let s :=
        if s.code_tx then
          { s with code_tx := false, code_sent := some code }
        else s
      let s :=
        if s.shutdown_tx then
          { s with shutdown_tx := false, shutdown_sent := true }
        else s
      ("Authorization code received. You can close this window.", s)
  | none =>
      ("No authorization code found in the query.", s)

/-- Sequential processing of callback requests by the server task. -/
def run_requests (reqs : List (List (String × String))) (s : ListenerState) :
    ListenerState :=
  reqs.foldl (fun s p => (handle_callback p s).2) s

/-- The caller side of `listen` (src/oidc/callback_listener.rs lines
33-42): `code_rx.await` resumes with the delivered code, or fails when the
channel closes without a value. -/
def listen_outcome (s : ListenerState) : Except Unit String :=
  match s.code_sent with
  | some code => .ok code
  | none => .error ()

/-- The socket address `listen` binds its warp server to
(src/oidc/callback_listener.rs line 23): the fixed tuple
`([127, 0, 0, 1], 3030)`. -/
def listener_bind_ip : List ℕ := [127, 0, 0, 1]

/-- The fixed port of the bound address (src/oidc/callback_listener.rs
line 23). -/
def listener_bind_port : ℕ := 3030

/-- The bound address rendered as host:port. -/
def listener_bind_addr : String :=
  String.intercalate "." (listener_bind_ip.map toString) ++ ":" ++
    toString listener_bind_port

/-- Modelled from the spec: the redirect URL's host:port component, which
the spec says the listener binds to ("bound to the redirect URL's
host:port").  The host:port of a URL is what stands after the scheme
separator and before the next slash.  The source has no such extraction —
this definition exists only to compare the spec's words with the code's
fixed bind address. -/
def afterScheme : List Char → Option (List Char)
  | ':' :: '/' :: '/' :: rest => some rest
  | _ :: rest => afterScheme rest
  | [] => none

/-- Modelled from the spec (continued): the host:port component is what
stands after the scheme separator and before the next slash. -/
def redirect_host_port (url : String) : String :=
  let rest := (afterScheme url.toList).getD url.toList
  String.mk (rest.takeWhile (· ≠ '/'))

/-- The URL-safe base64 alphabet used by
`base64::engine::general_purpose::URL_SAFE_NO_PAD`. -/
def b64UrlChars : List Char :=
  "ABCDEFGHIJKLMNOPQRSTUVWXYZabcdefghijklmnopqrstuvwxyz0123456789-_".toList

/-- The 6-bit value of a base64url character; `none` for characters
outside the alphabet (including the padding character). -/
def b64Val (c : Char) : Option ℕ :=
  b64UrlChars.findIdx? (· == c)

/-- `URL_SAFE_NO_PAD.decode`: no padding accepted, a length of 1 mod 4 and
nonzero trailing bits are rejected (the engine's defaults). -/
def b64Decode : List Char → Option (List ℕ)
  | [] => some []
  | [_] => none
  | [c1, c2] => do
      let v1 ← b64Val c1
      let v2 ← b64Val c2
      if v2 % 16 = 0 then some [v1 * 4 + v2 / 16] else none
  | [c1, c2, c3] => do
      let v1 ← b64Val c1
      let v2 ← b64Val c2
      let v3 ← b64Val c3
      if v3 % 4 = 0 then some [v1 * 4 + v2 / 16, v2 % 16 * 16 + v3 / 4]
      else none
  | c1 :: c2 :: c3 :: c4 :: rest => do
      let v1 ← b64Val c1
      let v2 ← b64Val c2
      let v3 ← b64Val c3
      let v4 ← b64Val c4
      let tail ← b64Decode rest
      some ((v1 * 4 + v2 / 16) :: (v2 % 16 * 16 + v3 / 4) :: (v3 % 4 * 64 + v4) :: tail)

/-- Is `b` a UTF-8 continuation byte (10xxxxxx). -/
def isUtf8Cont (b : ℕ) : Bool := b / 64 == 2

/-- UTF-8 validation and decoding of a byte sequence, as `serde_json`
requires of its input. -/
def utf8Decode : List ℕ → Option (List Char)
  | [] => some []
  | b1 :: rest =>
    if b1 < 0x80 then do
      let cs ← utf8Decode rest
      some (Char.ofNat b1 :: cs)
    else if 0xC2 ≤ b1 ∧ b1 ≤ 0xDF then
      match rest with
      | b2 :: rest2 =>
        if isUtf8Cont b2 then do
          let cs ← utf8Decode rest2
          some (Char.ofNat ((b1 - 0xC0) * 64 + (b2 - 0x80)) :: cs)
        else none
      | [] => none
    else if 0xE0 ≤ b1 ∧ b1 ≤ 0xEF then
      match rest with
      | b2 :: b3 :: rest3 =>
        if isUtf8Cont b2 ∧ isUtf8Cont b3 ∧
            (b1 ≠ 0xE0 ∨ 0xA0 ≤ b2) ∧ (b1 ≠ 0xED ∨ b2 < 0xA0) then do
          let cs ← utf8Decode rest3
          some (Char.ofNat ((b1 - 0xE0) * 4096 + (b2 - 0x80) * 64 + (b3 - 0x80)) :: cs)
        else none
      | _ => none
    else if 0xF0 ≤ b1 ∧ b1 ≤ 0xF4 then
      match rest with
      | b2 :: b3 :: b4 :: rest4 =>
        if isUtf8Cont b2 ∧ isUtf8Cont b3 ∧ isUtf8Cont b4 ∧
            (b1 ≠ 0xF0 ∨ 0x90 ≤ b2) ∧ (b1 ≠ 0xF4 ∨ b2 < 0x90) then do
          let cs ← utf8Decode rest4
          some (Char.ofNat ((b1 - 0xF0) * 262144 + (b2 - 0x80) * 4096 +
            (b3 - 0x80) * 64 + (b4 - 0x80)) :: cs)
        else none
      | _ => none
    else none

/-- JSON whitespace skipping (space, tab, line feed, carriage return). -/
def skipWs : List Char → List Char
  | c :: rest =>
      if c = ' ' ∨ c = '\t' ∨ c = '\n' ∨ c = '\r' then skipWs rest else c :: rest
  | [] => []

/-- The value of a hexadecimal digit. -/
def hexVal (c : Char) : Option ℕ :=
  if '0' ≤ c ∧ c ≤ '9' then some (c.toNat - '0'.toNat)
  else if 'a' ≤ c ∧ c ≤ 'f' then some (c.toNat - 'a'.toNat + 10)
  else if 'A' ≤ c ∧ c ≤ 'F' then some (c.toNat - 'A'.toNat + 10)
  else none

/-- JSON string-body parsing, after the opening quote: returns the decoded
content and the input after the closing quote.  Escapes follow RFC 8259 as
serde_json implements them: a lone surrogate escape is an error, a
surrogate pair combines. -/
def parseJsonString : List Char → Option (List Char × List Char)
  | [] => none
  | c :: rest =>
    if c = '"' then some ([], rest)
    else if c = '\\' then
      match rest with
      | 'u' :: h1 :: h2 :: h3 :: h4 :: rest4 => do
          let d1 ← hexVal h1
          let d2 ← hexVal h2
          let d3 ← hexVal h3
          let d4 ← hexVal h4
          let cp := d1 * 4096 + d2 * 256 + d3 * 16 + d4
          if cp < 0xD800 ∨ 0xE000 ≤ cp then do
            let (s, r) ← parseJsonString rest4
            some (Char.ofNat cp :: s, r)
          else if cp < 0xDC00 then
            match rest4 with
            | '\\' :: 'u' :: g1 :: g2 :: g3 :: g4 :: rest8 => do
                let e1 ← hexVal g1
                let e2 ← hexVal g2
                let e3 ← hexVal g3
                let e4 ← hexVal g4
                let lo := e1 * 4096 + e2 * 256 + e3 * 16 + e4
                if 0xDC00 ≤ lo ∧ lo < 0xE000 then do
                  let (s, r) ← parseJsonString rest8
                  some (Char.ofNat (0x10000 + (cp - 0xD800) * 1024 + (lo - 0xDC00)) :: s, r)
                else none
            | _ => none
          else none
      | e :: rest1 =>
          let esc : Option Char :=
            if e = '"' then some '"'
            else if e = '\\' then some '\\'
            else if e = '/' then some '/'
            else if e = 'b' then some (Char.ofNat 8)
            else if e = 'f' then some (Char.ofNat 12)
            else if e = 'n' then some '\n'
            else if e = 'r' then some '\r'
            else if e = 't' then some '\t'
            else none
          match esc with
          | some ch => do
              let (s, r) ← parseJsonString rest1
              some (ch :: s, r)
          | none => none
      | [] => none
    else if c.toNat < 0x20 then none
    else do
      let (s, r) ← parseJsonString rest
      some (c :: s, r)

/-- The longest run of decimal digits at the head of the input. -/
def takeDigits : List Char → List Char × List Char
  | c :: rest =>
      if '0' ≤ c ∧ c ≤ '9' then
        let (ds, r) := takeDigits rest
        (c :: ds, r)
      else ([], c :: rest)
  | [] => ([], [])

/-- The natural number denoted by a digit run. -/
def digitsToNat (ds : List Char) : ℕ :=
  ds.foldl (fun acc c => acc * 10 + (c.toNat - '0'.toNat)) 0

/-- JSON number parsing, serde_json style: optional minus, an integer part
with no leading zero, optional fraction and exponent.  The parsed value is
kept exactly; the float flag records whether serde stores it as `f64`
(fraction or exponent present, or an integer outside both the `i64` and
the `u64` range). -/
def parseJsonNumber (input : List Char) : Option (Json × List Char) :=
  let (neg, afterSign) :=
    match input with
    | '-' :: r => (true, r)
    | _ => (false, input)
  let (intDs, afterInt) := takeDigits afterSign
  match intDs with
  | [] => none
  | d0 :: ds0 =>
    if d0 = '0' ∧ ds0 ≠ [] then none
    else
      let (hasFrac, fracDs, afterFrac) :=
        match afterInt with
        | '.' :: r =>
            let (fs, r2) := takeDigits r
            (true, fs, r2)
        | _ => (false, [], afterInt)
      if hasFrac ∧ fracDs = [] then none
      else
        let (hasExp, expNeg, expDs, afterExp) :=
          match afterFrac with
          | 'e' :: '-' :: r => let (es, r2) := takeDigits r; (true, true, es, r2)
          | 'e' :: '+' :: r => let (es, r2) := takeDigits r; (true, false, es, r2)
          | 'e' :: r => let (es, r2) := takeDigits r; (true, false, es, r2)
          | 'E' :: '-' :: r => let (es, r2) := takeDigits r; (true, true, es, r2)
          | 'E' :: '+' :: r => let (es, r2) := takeDigits r; (true, false, es, r2)
          | 'E' :: r => let (es, r2) := takeDigits r; (true, false, es, r2)
          | _ => (false, false, [], afterFrac)
        if hasExp ∧ expDs = [] then none
        else
          let mantissa : ℤ := digitsToNat intDs * 10 ^ fracDs.length + digitsToNat fracDs
          let mantissa := if neg then -mantissa else mantissa
          let base : ℚ := (mantissa : ℚ) / (10 : ℚ) ^ fracDs.length
          let q : ℚ :=
            if expNeg then base / (10 : ℚ) ^ digitsToNat expDs
            else base * (10 : ℚ) ^ digitsToNat expDs
          let isFloat : Bool := hasFrac ∨ hasExp ∨ q < -(2 ^ 63 : ℚ) ∨ (2 ^ 64 - 1 : ℚ) < q
          some (Json.num isFloat q, afterExp)

/-- Insert a key into an object under construction: an existing binding is
overwritten (serde_json's map insert), a new key is appended. -/
def insertField (fields : List (String × Json)) (k : String) (v : Json) :
    List (String × Json) :=
  match fields with
  | [] => [(k, v)]
  | (k0, v0) :: rest =>
      if k0 = k then (k0, v) :: rest else (k0, v0) :: insertField rest k v

mutual

/-- Recursive-descent JSON value parsing with explicit fuel (serde_json's
grammar); fuel at least one beyond the input length always suffices. -/
def parseValue : ℕ → List Char → Option (Json × List Char)
  | 0, _ => none
  | f + 1, input =>
    match skipWs input with
    | [] => none
    | c :: rest =>
      if c = '"' then do
        let (s, r) ← parseJsonString rest
        some (Json.str (String.mk s), r)
      else if c = '\x7b' then parseMembers f (skipWs rest) true []
      else if c = '[' then parseElements f (skipWs rest) true []
      else if c = 't' then
        match rest with
        | 'r' :: 'u' :: 'e' :: r => some (Json.bool true, r)
        | _ => none
      else if c = 'f' then
        match rest with
        | 'a' :: 'l' :: 's' :: 'e' :: r => some (Json.bool false, r)
        | _ => none
      else if c = 'n' then
        match rest with
        | 'u' :: 'l' :: 'l' :: r => some (Json.null, r)
        | _ => none
      else parseJsonNumber (c :: rest)

/-- Object-member list parsing: `first` is true just after the opening
brace, where an immediate closing brace yields the empty object. -/
def parseMembers : ℕ → List Char → Bool → List (String × Json) →
    Option (Json × List Char)
  | 0, _, _, _ => none
  | f + 1, input, first, acc =>
    match input with
    | '\x7d' :: rest => if first then some (Json.obj acc, rest) else none
    | '"' :: rest => do
        let (k, r1) ← parseJsonString rest
        match skipWs r1 with
        | ':' :: r2 => do
            let (v, r3) ← parseValue f r2
            let acc := insertField acc (String.mk k) v
            match skipWs r3 with
            | ',' :: r4 =>
                match skipWs r4 with
                | '"' :: r5 => parseMembers f ('"' :: r5) false acc
                | _ => none
            | '\x7d' :: r4 => some (Json.obj acc, r4)
            | _ => none
        | _ => none
    | _ => none

/-- Array-element list parsing: `first` is true just after the opening
bracket, where an immediate closing bracket yields the empty array. -/
def parseElements : ℕ → List Char → Bool → List Json →
    Option (Json × List Char)
  | 0, _, _, _ => none
  | f + 1, input, first, acc =>
    if input.take 1 = [']'] ∧ first then some (Json.arr acc.reverse, input.drop 1)
    else do
      let (v, r1) ← parseValue f input
      match skipWs r1 with
      | ',' :: r2 => parseElements f (skipWs r2) false (v :: acc)
      | ']' :: r2 => some (Json.arr (v :: acc).reverse, r2)
      | _ => none

end

/-- `serde_json::from_slice::<Value>`: the bytes must be valid UTF-8 and
hold exactly one JSON value surrounded by whitespace. -/
def from_slice (bytes : List ℕ) : Option Json := do
  let chars ← utf8Decode bytes
  let (v, rest) ← parseValue (chars.length + 1) chars
  if skipWs rest = [] then some v else none

/-- The error type of `decode_jwt_without_verification`; the source
returns `Box<dyn Error>` holding either the literal "Invalid JWT format"
message, an error of the base64 crate, or one of serde_json. -/
inductive JwtDecodeError where
  | InvalidJwtFormat
  | Base64Error
  | JsonError
deriving DecidableEq

/-- Rust `str::split(sep)` over the characters: every separator occurrence
cuts, so the empty string yields one empty segment and adjacent separators
yield empty segments. -/
def splitOnChar (sep : Char) : List Char → List (List Char)
  | [] => [[]]
  | c :: rest =>
      if c = sep then [] :: splitOnChar sep rest
      else
        match splitOnChar sep rest with
        | s :: ss => (c :: s) :: ss
        | [] => [[c]]

/-- `decode_jwt_without_verification` (src/oidc/jwt_client.rs lines 4-19):
split on dots, require exactly 3 segments, base64url-decode segments 0 and
1 without padding, then parse each as JSON; the third segment is never
read. -/
def decode_jwt_without_verification (token : String) :
    Except JwtDecodeError (Json × Json) :=
  match splitOnChar '.' token.toList with
  | [p0, p1, _p2] => do
      let header ← okOr (b64Decode p0) JwtDecodeError.Base64Error
      let payload ← okOr (b64Decode p1) JwtDecodeError.Base64Error
      let header_json ← okOr (from_slice header) JwtDecodeError.JsonError
      let payload_json ← okOr (from_slice payload) JwtDecodeError.JsonError
      .ok (header_json, payload_json)
  | _ => .error JwtDecodeError.InvalidJwtFormat

/-- The four required fields of the discovery document, in the order the
source checks them. -/
def wellKnownFields : List String :=
  ["authorization_endpoint", "token_endpoint", "userinfo_endpoint", "jwks_uri"]

/-- A client whose caller supplied the CSRF state "abc" on construction
(the optional `state` argument of `new`). -/
def clientWithSuppliedState : OidcClient :=
  { issuer := "https://idp", client_id := "abc", client_secret := "sec",
    redirect_url := "http://127.0.0.1:3030/callback", scope := ["openid"],
    well_knowns := { auth_url := "https://idp/auth", token_url := "https://idp/token",
                     user_info_url := "https://idp/userinfo", jwks_url := "https://idp/jwks" },
    state := some "abc" }

/-- The end-to-end scenario's discovery document (spec section 8). -/
def endToEndDoc : Json :=
  Json.obj [("authorization_endpoint", Json.str "https://idp/auth"),
            ("token_endpoint", Json.str "https://idp/token"),
            ("userinfo_endpoint", Json.str "https://idp/userinfo"),
            ("jwks_uri", Json.str "https://idp/jwks")]

/-- The end-to-end scenario's client: `client_id="abc"`, default redirect,
scope `["openid"]`, no caller-supplied state. -/
def endToEndClient : OidcClient :=
  { issuer := "https://idp", client_id := "abc", client_secret := "sec",
    redirect_url := "http://127.0.0.1:3030/callback", scope := ["openid"],
    well_knowns := { auth_url := "https://idp/auth", token_url := "https://idp/token",
                     user_info_url := "https://idp/userinfo", jwks_url := "https://idp/jwks" },
    state := none }

theorem handle_callback_of_consumed (p : List (String × String))
    (s : ListenerState) (hc : s.code_tx = false) (hs : s.shutdown_tx = false) :
    (handle_callback p s).2 = s := by
  unfold handle_callback
  cases p.lookup "code" <;> simp [hc, hs]

theorem run_requests_of_consumed (reqs : List (List (String × String)))
    (s : ListenerState) (hc : s.code_tx = false) (hs : s.shutdown_tx = false) :
    run_requests reqs s = s := by
  induction reqs with
  | nil => rfl
  | cons p rest ih =>
      unfold run_requests at ih ⊢
      simp only [List.foldl_cons]
      rw [handle_callback_of_consumed p s hc hs]
      exact ih

/-- C1: starting from the freshly created channels, the first request
carrying a `code` parameter delivers exactly that code to the waiting
caller (which `listen` yields), consumes both take-once slots and signals
shutdown once; any sequence of later requests leaves the state unchanged,
and a later code-bearing request receives the generic acknowledgement
reply without altering the delivered value, re-triggering shutdown, or
erroring. -/
theorem listener_first_code_wins
    (p : List (String × String)) (c : String) (hp : p.lookup "code" = some c)
    (reqs : List (List (String × String)))
    (q : List (String × String)) (c' : String) (hq : q.lookup "code" = some c') :
    (handle_callback p ListenerState.init).2 =
      { code_tx := false, shutdown_tx := false, code_sent := some c,
        shutdown_sent := true } ∧
    listen_outcome (handle_callback p ListenerState.init).2 = .ok c ∧
    run_requests reqs (handle_callback p ListenerState.init).2 =
      (handle_callback p ListenerState.init).2 ∧
    handle_callback q (run_requests reqs (handle_callback p ListenerState.init).2) =
      ("Authorization code received. You can close this window.",
        (handle_callback p ListenerState.init).2) := by
  have h1 : (handle_callback p ListenerState.init).2 =
      { code_tx := false, shutdown_tx := false, code_sent := some c,
        shutdown_sent := true } := by
    unfold handle_callback
    rw [hp]
    rfl
  have h2 : run_requests reqs (handle_callback p ListenerState.init).2 =
      (handle_callback p ListenerState.init).2 := by
    rw [h1]
    exact run_requests_of_consumed reqs _ rfl rfl
  refine ⟨h1, by rw [h1]; rfl, h2, ?_⟩
  rw [h2, h1]
  unfold handle_callback
  rw [hq]
  rfl

theorem listener_first_code_wins_witness :
    (handle_callback [("code", "abc123")] ListenerState.init).2 =
      { code_tx := false, shutdown_tx := false, code_sent := some "abc123",
        shutdown_sent := true } ∧
    listen_outcome (handle_callback [("code", "abc123")] ListenerState.init).2 =
      .ok "abc123" ∧
    run_requests [[("code", "evil")], [("state", "x")]]
        (handle_callback [("code", "abc123")] ListenerState.init).2 =
      (handle_callback [("code", "abc123")] ListenerState.init).2 ∧
    handle_callback [("code", "evil")]
        (run_requests [[("code", "evil")], [("state", "x")]]
          (handle_callback [("code", "abc123")] ListenerState.init).2) =
      ("Authorization code received. You can close this window.",
        (handle_callback [("code", "abc123")] ListenerState.init).2) :=
  listener_first_code_wins [("code", "abc123")] "abc123" rfl
    [[("code", "evil")], [("state", "x")]] [("code", "evil")] "evil" rfl

/-- C9: a callback request without a `code` query parameter gets the
informational reply and leaves the whole channel state unchanged: both
take-once slots keep their contents, no shutdown is signalled and the
waiting caller is not resumed. -/
theorem callback_without_code_is_noop (p : List (String × String))
    (s : ListenerState) (h : p.lookup "code" = none) :
    handle_callback p s = ("No authorization code found in the query.", s) := by
  unfold handle_callback
  rw [h]

theorem callback_without_code_is_noop_witness :
    handle_callback [("state", "xyz")] ListenerState.init =
      ("No authorization code found in the query.", ListenerState.init) :=
  callback_without_code_is_noop [("state", "xyz")] ListenerState.init rfl

/-- C2 (counterexample): a client constructed with the supplied state
"abc" does not keep it across `build_authorization_url` — the call
overwrites it with the freshly generated state (here, with an RNG that
always draws index 0, thirty-two letters A). -/
theorem build_url_overwrites_supplied_state_cex :
    clientWithSuppliedState.state = some "abc" ∧
    (build_authorization_url clientWithSuppliedState (fun _ => 0)).2.state =
      some "AAAAAAAAAAAAAAAAAAAAAAAAAAAAAAAA" ∧
    (build_authorization_url clientWithSuppliedState (fun _ => 0)).2.state ≠
      some "abc" := by
  refine ⟨rfl, rfl, ?_⟩
  have h1 : (build_authorization_url clientWithSuppliedState (fun _ => 0)).2.state =
      some "AAAAAAAAAAAAAAAAAAAAAAAAAAAAAAAA" := rfl
  rw [h1]
  decide

/-- C2 (amended): `build_authorization_url` always generates a fresh
32-character alphanumeric state and stores it, overwriting any previously
supplied or stored state; the produced URL uses the freshly generated
state, and nothing else in the client changes. -/
theorem build_url_always_generates_fresh_state (c : OidcClient)
    (draws : ℕ → Fin 62) :
    (build_authorization_url c draws).2 =
      { c with state := some (generate_state draws) } ∧
    (generate_state draws).length = 32 ∧
    (∀ ch ∈ (generate_state draws).toList, ch ∈ alphanumericChars) ∧
    (build_authorization_url c draws).1 =
      c.well_knowns.auth_url ++ "?response_type=code&client_id=" ++ c.client_id ++
        "&redirect_uri=" ++ c.redirect_url ++ "&scope=" ++
        String.intercalate " " c.scope ++ "&state=" ++ generate_state draws ++
        "&access_type=offline" := by
  refine ⟨rfl, ?_, ?_, rfl⟩
  · show ((List.range 32).map _).length = 32
    simp
  · intro ch hch
    have hch' : ch ∈ (List.range 32).map (fun i =>
        alphanumericChars.get ((draws i).cast alphanumericChars_length.symm)) := hch
    obtain ⟨i, _, rfl⟩ := List.mem_map.mp hch'
    exact alphanumericChars.get_mem _ _

/-- C4: in the end-to-end scenario (discovery yields the four idp
endpoints, `client_id="abc"`, the default redirect, scope `["openid"]`),
the authorization URL is exactly the expected string with the query
parameters in this order, scope space-joined, the stored 32-character
state in the `state` parameter and the fixed `access_type=offline`
suffix. -/
theorem authorization_url_end_to_end (draws : ℕ → Fin 62) :
    fetch_well_knowns_from_json endToEndDoc = .ok endToEndClient.well_knowns ∧
    (build_authorization_url endToEndClient draws).1 =
      "https://idp/auth?response_type=code&client_id=abc&redirect_uri=http://127.0.0.1:3030/callback&scope=openid&state=" ++
        generate_state draws ++ "&access_type=offline" ∧
    (generate_state draws).length = 32 ∧
    (build_authorization_url endToEndClient draws).2.state =
      some (generate_state draws) := by
  refine ⟨rfl, rfl, ?_, rfl⟩
  show ((List.range 32).map _).length = 32
  simp

/-- C3 (counterexample): the listener does not bind to the redirect URL's
host:port — for the redirect URL http://localhost:8080/cb the bound
address is still the fixed 127.0.0.1:3030. -/
theorem listener_bind_ignores_redirect_cex :
    redirect_host_port "http://localhost:8080/cb" ≠ listener_bind_addr := by
  have h1 : redirect_host_port "http://localhost:8080/cb" = "localhost:8080" := rfl
  have h2 : listener_bind_addr = "127.0.0.1:3030" := rfl
  rw [h1, h2]
  decide

/-- C3 (amended): the listener's server is always bound to the fixed
address 127.0.0.1:3030, whatever redirect URL the client was configured
with; this coincides with the redirect URL's host:port only for the
default redirect http://127.0.0.1:3030/callback. -/
theorem listener_binds_fixed_address :
    listener_bind_ip = [127, 0, 0, 1] ∧ listener_bind_port = 3030 ∧
    listener_bind_addr = "127.0.0.1:3030" ∧
    redirect_host_port "http://127.0.0.1:3030/callback" = listener_bind_addr :=
  ⟨rfl, rfl, rfl, rfl⟩

theorem fetch_well_knowns_ok_isSome (j : Json) (r : WellKnowns)
    (h : fetch_well_knowns_from_json j = .ok r) :
    ((j.getField "authorization_endpoint").asStr).isSome ∧
    ((j.getField "token_endpoint").asStr).isSome ∧
    ((j.getField "userinfo_endpoint").asStr).isSome ∧
    ((j.getField "jwks_uri").asStr).isSome := by
  unfold fetch_well_knowns_from_json at h
  rcases ha : (j.getField "authorization_endpoint").asStr with _ | a <;> rw [ha] at h
  · simp [okOr, Bind.bind, Except.bind] at h
  rcases ht : (j.getField "token_endpoint").asStr with _ | t <;> rw [ht] at h
  · simp [okOr, Bind.bind, Except.bind] at h
  rcases hu : (j.getField "userinfo_endpoint").asStr with _ | u <;> rw [hu] at h
  · simp [okOr, Bind.bind, Except.bind] at h
  rcases hw : (j.getField "jwks_uri").asStr with _ | w <;> rw [hw] at h
  · simp [okOr, Bind.bind, Except.bind] at h
  simp

/-- C5: on any 2xx discovery document, if all four endpoint fields are
present as strings, resolution returns the endpoint set with byte-identical
values; if exactly one of them is missing or not a string, resolution fails
with the error naming that exact field; and whenever any of them is
missing, no endpoint set is produced. -/
theorem well_knowns_resolution_correct :
    (∀ (j : Json) (a t u w : String),
      (j.getField "authorization_endpoint").asStr = some a →
      (j.getField "token_endpoint").asStr = some t →
      (j.getField "userinfo_endpoint").asStr = some u →
      (j.getField "jwks_uri").asStr = some w →
      fetch_well_knowns_from_json j =
        .ok { auth_url := a, token_url := t, user_info_url := u, jwks_url := w }) ∧
    (∀ (j : Json) (f : String), f ∈ wellKnownFields →
      (j.getField f).asStr = none →
      (∀ g ∈ wellKnownFields, g ≠ f → ((j.getField g).asStr).isSome) →
      fetch_well_knowns_from_json j = .error ("Missing " ++ f)) ∧
    (∀ (j : Json) (f : String), f ∈ wellKnownFields →
      (j.getField f).asStr = none →
      ∀ r, fetch_well_knowns_from_json j ≠ .ok r) := by
  refine ⟨?_, ?_, ?_⟩
  · intro j a t u w ha ht hu hw
    simp [fetch_well_knowns_from_json, okOr, ha, ht, hu, hw, Bind.bind, Except.bind]
  · intro j f hf hnone hothers
    fin_cases hf
    · simp [fetch_well_knowns_from_json, okOr, hnone, Bind.bind, Except.bind]
    · obtain ⟨a, ha⟩ := Option.isSome_iff_exists.mp
        (hothers "authorization_endpoint" (by simp [wellKnownFields]) (by decide))
      simp [fetch_well_knowns_from_json, okOr, ha, hnone, Bind.bind, Except.bind]
    · obtain ⟨a, ha⟩ := Option.isSome_iff_exists.mp
        (hothers "authorization_endpoint" (by simp [wellKnownFields]) (by decide))
      obtain ⟨t, ht⟩ := Option.isSome_iff_exists.mp
        (hothers "token_endpoint" (by simp [wellKnownFields]) (by decide))
      simp [fetch_well_knowns_from_json, okOr, ha, ht, hnone, Bind.bind, Except.bind]
    · obtain ⟨a, ha⟩ := Option.isSome_iff_exists.mp
        (hothers "authorization_endpoint" (by simp [wellKnownFields]) (by decide))
      obtain ⟨t, ht⟩ := Option.isSome_iff_exists.mp
        (hothers "token_endpoint" (by simp [wellKnownFields]) (by decide))
      obtain ⟨u, hu⟩ := Option.isSome_iff_exists.mp
        (hothers "userinfo_endpoint" (by simp [wellKnownFields]) (by decide))
      simp [fetch_well_knowns_from_json, okOr, ha, ht, hu, hnone, Bind.bind, Except.bind]
  · intro j f hf hnone r hok
    have hs := fetch_well_knowns_ok_isSome j r hok
    fin_cases hf
    · rw [hnone] at hs; simp at hs
    · rw [hnone] at hs; simp at hs
    · rw [hnone] at hs; simp at hs
    · rw [hnone] at hs; simp at hs

theorem well_knowns_resolution_correct_witness :
    fetch_well_knowns_from_json endToEndDoc =
      .ok { auth_url := "https://idp/auth", token_url := "https://idp/token",
            user_info_url := "https://idp/userinfo", jwks_url := "https://idp/jwks" } ∧
    fetch_well_knowns_from_json
        (Json.obj [("authorization_endpoint", Json.str "a"),
                   ("userinfo_endpoint", Json.str "u"),
                   ("jwks_uri", Json.str "w")]) =
      .error ("Missing " ++ "token_endpoint") ∧
    fetch_well_knowns_from_json (Json.obj []) ≠
      .ok { auth_url := "a", token_url := "t", user_info_url := "u", jwks_url := "w" } :=
  ⟨well_knowns_resolution_correct.1 endToEndDoc _ _ _ _ rfl rfl rfl rfl,
   well_knowns_resolution_correct.2.1 _ "token_endpoint" (by decide) rfl (by decide),
   well_knowns_resolution_correct.2.2 (Json.obj []) "authorization_endpoint"
     (by decide) rfl _⟩

/-- C6: a 2xx token-endpoint response missing `access_token` (or holding a
non-string there) makes `get_token` fail with MissingField "access_token"
and produce no TokenResponse; likewise a response missing `token_type` or
`expires_in` fails naming that field, never yielding a partial object. -/
theorem get_token_missing_required_field :
    (∀ j : Json, (j.getField "access_token").asStr = none →
      get_token_from_json j = .error (OidcError.MissingField "access_token")) ∧
    (∀ j : Json, ((j.getField "access_token").asStr).isSome →
      (j.getField "token_type").asStr = none →
      get_token_from_json j = .error (OidcError.MissingField "token_type")) ∧
    (∀ j : Json, ((j.getField "access_token").asStr).isSome →
      ((j.getField "token_type").asStr).isSome →
      (j.getField "expires_in").asU64 = none →
      get_token_from_json j = .error (OidcError.MissingField "expires_in")) := by
  refine ⟨?_, ?_, ?_⟩
  · intro j h
    simp [get_token_from_json, okOr, h, Bind.bind, Except.bind]
  · intro j ha ht
    obtain ⟨a, ha'⟩ := Option.isSome_iff_exists.mp ha
    simp [get_token_from_json, okOr, ha', ht, Bind.bind, Except.bind]
  · intro j ha ht he
    obtain ⟨a, ha'⟩ := Option.isSome_iff_exists.mp ha
    obtain ⟨t, ht'⟩ := Option.isSome_iff_exists.mp ht
    simp [get_token_from_json, okOr, ha', ht', he, Bind.bind, Except.bind]

theorem get_token_missing_required_field_witness :
    get_token_from_json
        (Json.obj [("token_type", Json.str "Bearer"),
                   ("expires_in", Json.num false 3600)]) =
      .error (OidcError.MissingField "access_token") ∧
    get_token_from_json
        (Json.obj [("access_token", Json.str "at"),
                   ("expires_in", Json.num false 3600)]) =
      .error (OidcError.MissingField "token_type") ∧
    get_token_from_json
        (Json.obj [("access_token", Json.str "at"),
                   ("token_type", Json.str "Bearer")]) =
      .error (OidcError.MissingField "expires_in") :=
  ⟨get_token_missing_required_field.1 _ rfl,
   get_token_missing_required_field.2.1 _ rfl rfl,
   get_token_missing_required_field.2.2 _ rfl rfl rfl⟩

/-- C10: in both `get_token` and `refresh_token`, a 2xx response whose
`expires_in` field is present but not representable as an unsigned 64-bit
integer (a string, a negative number, or a fractional number) is rejected
exactly as an absent field would be: MissingField "expires_in", and no
TokenResponse is produced. -/
theorem expires_in_not_u64_rejected (j : Json)
    (ha : ((j.getField "access_token").asStr).isSome)
    (ht : ((j.getField "token_type").asStr).isSome)
    (hp : j.getField "expires_in" ≠ Json.null)
    (hu : (j.getField "expires_in").asU64 = none) :
    get_token_from_json j = .error (OidcError.MissingField "expires_in") ∧
    refresh_token_from_json j = .error (OidcError.MissingField "expires_in") := by
  obtain ⟨a, ha'⟩ := Option.isSome_iff_exists.mp ha
  obtain ⟨t, ht'⟩ := Option.isSome_iff_exists.mp ht
  constructor <;>
    simp [get_token_from_json, refresh_token_from_json, okOr, ha', ht', hu,
      Bind.bind, Except.bind]

theorem expires_in_not_u64_rejected_witness :
    (get_token_from_json
        (Json.obj [("access_token", Json.str "at"),
                   ("token_type", Json.str "Bearer"),
                   ("expires_in", Json.str "3600")]) =
      .error (OidcError.MissingField "expires_in") ∧
     refresh_token_from_json
        (Json.obj [("access_token", Json.str "at"),
                   ("token_type", Json.str "Bearer"),
                   ("expires_in", Json.str "3600")]) =
      .error (OidcError.MissingField "expires_in")) ∧
    (get_token_from_json
        (Json.obj [("access_token", Json.str "at"),
                   ("token_type", Json.str "Bearer"),
                   ("expires_in", Json.num false (-5))]) =
      .error (OidcError.MissingField "expires_in") ∧
     refresh_token_from_json
        (Json.obj [("access_token", Json.str "at"),
                   ("token_type", Json.str "Bearer"),
                   ("expires_in", Json.num false (-5))]) =
      .error (OidcError.MissingField "expires_in")) ∧
    (get_token_from_json
        (Json.obj [("access_token", Json.str "at"),
                   ("token_type", Json.str "Bearer"),
                   ("expires_in", Json.num true (3 / 2))]) =
      .error (OidcError.MissingField "expires_in") ∧
     refresh_token_from_json
        (Json.obj [("access_token", Json.str "at"),
                   ("token_type", Json.str "Bearer"),
                   ("expires_in", Json.num true (3 / 2))]) =
      .error (OidcError.MissingField "expires_in")) :=
  ⟨expires_in_not_u64_rejected _ rfl rfl (fun h => Json.noConfusion h) rfl,
   expires_in_not_u64_rejected _ rfl rfl (fun h => Json.noConfusion h) rfl,
   expires_in_not_u64_rejected _ rfl rfl (fun h => Json.noConfusion h) rfl⟩

/-- C7: `decode_jwt_without_verification` is total: every input that does
not split on dots into exactly 3 segments yields the malformed-structure
error; every 3-segment input whose first or second segment is not valid
unpadded base64url yields a base64 error; and every 3-segment input whose
first two segments base64url-decode to JSON yields both the header and the
payload objects. -/
theorem decode_jwt_total_structure :
    (∀ t : String, (splitOnChar '.' t.toList).length ≠ 3 →
      decode_jwt_without_verification t = .error JwtDecodeError.InvalidJwtFormat) ∧
    (∀ (t : String) (p0 p1 p2 : List Char),
      splitOnChar '.' t.toList = [p0, p1, p2] →
      b64Decode p0 = none ∨ b64Decode p1 = none →
      decode_jwt_without_verification t = .error JwtDecodeError.Base64Error) ∧
    (∀ (t : String) (p0 p1 p2 : List Char) (bs0 bs1 : List ℕ) (hj pj : Json),
      splitOnChar '.' t.toList = [p0, p1, p2] →
      b64Decode p0 = some bs0 → b64Decode p1 = some bs1 →
      from_slice bs0 = some hj → from_slice bs1 = some pj →
      decode_jwt_without_verification t = .ok (hj, pj)) := by
  refine ⟨?_, ?_, ?_⟩
  · intro t h
    rcases hs : splitOnChar '.' t.toList with _ | ⟨a, _ | ⟨b, _ | ⟨c, _ | ⟨d, l⟩⟩⟩⟩
    · unfold decode_jwt_without_verification
      rw [hs]
    · unfold decode_jwt_without_verification
      rw [hs]
    · unfold decode_jwt_without_verification
      rw [hs]
    · exact absurd (by rw [hs]; rfl : (splitOnChar '.' t.toList).length = 3) h
    · unfold decode_jwt_without_verification
      rw [hs]
  · intro t p0 p1 p2 hsplit hb
    unfold decode_jwt_without_verification
    rw [hsplit]
    rcases hb with hb | hb
    · simp [okOr, hb, Bind.bind, Except.bind]
    · rcases h0 : b64Decode p0 with _ | bs0 <;>
        simp [okOr, h0, hb, Bind.bind, Except.bind]
  · intro t p0 p1 p2 bs0 bs1 hj pj hsplit hb0 hb1 hj0 hj1
    unfold decode_jwt_without_verification
    rw [hsplit]
    simp [okOr, hb0, hb1, hj0, hj1, Bind.bind, Except.bind]

theorem decode_jwt_total_structure_witness :
    decode_jwt_without_verification "e30.e30" =
      .error JwtDecodeError.InvalidJwtFormat ∧
    decode_jwt_without_verification "#.e30.x" =
      .error JwtDecodeError.Base64Error ∧
    decode_jwt_without_verification "e30.e30.x" = .ok (Json.obj [], Json.obj []) :=
  ⟨decode_jwt_total_structure.1 "e30.e30" (by decide),
   decode_jwt_total_structure.2.1 "#.e30.x" "#".toList "e30".toList "x".toList
     rfl (Or.inl rfl),
   decode_jwt_total_structure.2.2 "e30.e30.x" "e30".toList "e30".toList "x".toList
     [123, 125] [123, 125] (Json.obj []) (Json.obj []) rfl rfl rfl rfl rfl⟩

/-- C8: the result of `decode_jwt_without_verification` depends only on
the first two dot-separated segments — two 3-segment tokens agreeing on
segments 0 and 1 decode to identical results, so the signature segment is
never decoded, inspected or verified. -/
theorem decode_jwt_ignores_third_segment (t1 t2 : String)
    (p0 p1 s1 s2 : List Char)
    (h1 : splitOnChar '.' t1.toList = [p0, p1, s1])
    (h2 : splitOnChar '.' t2.toList = [p0, p1, s2]) :
    decode_jwt_without_verification t1 = decode_jwt_without_verification t2 := by
  unfold decode_jwt_without_verification
  rw [h1, h2]

theorem decode_jwt_ignores_third_segment_witness :
    decode_jwt_without_verification "e30.e30.AAA" =
      decode_jwt_without_verification "e30.e30.@@@" :=
  decode_jwt_ignores_third_segment "e30.e30.AAA" "e30.e30.@@@"
    "e30".toList "e30".toList "AAA".toList "@@@".toList rfl rfl

end Authify
